import Mathlib

/-!
Verification of the turn-based combat core of the `vader-game` repository.

The definitions below are a shallow embedding of the Python sources:

  * `src/src/character/vader.py`       — the resource actor (`DarthVader`)
  * `src/src/character/suit_system.py` — the suit collaborator (pain / breathing)
  * `src/src/character/force_powers.py`— the ability catalog (`ForcePowerSystem`)
  * `src/src/combat/combat_system.py`  — the combat engine (`CombatSystem`)
  * `src/src/combat/boss_fight.py`     — the boss encounter engine

Python machine integers are modelled as `Int` (Python ints are unbounded, so
no wrap-around is needed).  All integer divisions that appear in the sources
(`//`) are applied to non-negative operands in every reachable state, where
Python's floor division, Lean's `Int` division and Euclidean division agree;
the theorems carry the non-negativity facts they need.

Python float comparisons such as `current_hp < max_hp * 0.4` are modelled by
the exact rational comparison (`current_hp * 10 < max_hp * 4`): for the
thresholds used by the game (0.25, 0.3, 0.4) and int operands of game
magnitude the double-precision product rounds to the exact integer whenever
the exact value is an integer, so the float comparison and the rational
comparison coincide.

Mutation of Python objects is modelled by explicit state passing; the
human-readable combat log (a list of strings used only by the presentation
layer) is not modelled.  Randomness (`random.randint`) is modelled by oracle
parameters: each roll the code draws is an explicit argument or is taken from
an explicit list of rolls, so every theorem quantifies over all possible
outcomes of the random number generator.
-/

namespace VaderGame

/-! ### The resource actor — `DarthVader` from `src/src/character/vader.py`

Fields of the nested `PsychologicalState` dataclass (`darkness`, `control`,
`rage`) and `VaderStats.strength` are inlined into the record; fields that no
embedded operation reads (inventory, relationships, kill counters, …) are
omitted. -/

structure DarthVader where
  level : Int
  experience : Int
  max_force_points : Int
  current_force_points : Int
  force_point_regen_rate : Int
  force_exhaustion_turns : Int
  max_health : Int
  current_health : Int
  darkness : Int
  control : Int
  rage : Int
  strength : Int
  deriving Repr, DecidableEq

/-- The freshly constructed actor (`DarthVader.__init__`). -/
def initVader : DarthVader where
  level := 1
  experience := 0
  max_force_points := 100
  current_force_points := 100
  force_point_regen_rate := 10
  force_exhaustion_turns := 0
  max_health := 150
  current_health := 150
  darkness := 50
  control := 40
  rage := 60
  strength := 9

/-- `DarthVader.take_damage`: subtract damage; if health would be ≤ 0 and
`rage > 80`, health is pinned to 1 and the actor reported alive, otherwise a
lethal hit reports the actor defeated (health is NOT clamped to 0).
Returns (new state, still-alive flag). -/
def DarthVader.take_damage (v : DarthVader) (amount : Int) : DarthVader × Bool :=
  let v := { v with current_health := v.current_health - amount }
  if v.current_health ≤ 0 then
    if v.rage > 80 then
      ({ v with current_health := 1 }, true)
    else
      (v, false)
  else
    (v, true)

/-- `DarthVader.heal`: restore health, clamped to `max_health`. -/
def DarthVader.heal (v : DarthVader) (amount : Int) : DarthVader :=
  { v with current_health := min v.max_health (v.current_health + amount) }

/-- `DarthVader.spend_force_points`: deduct iff enough points are available.
Returns (new state, success flag). -/
def DarthVader.spend_force_points (v : DarthVader) (amount : Int) : DarthVader × Bool :=
  if v.current_force_points ≥ amount then
    ({ v with current_force_points := v.current_force_points - amount }, true)
  else
    (v, false)

/-- `DarthVader.restore_force_points`: restore, clamped to the maximum. -/
def DarthVader.restore_force_points (v : DarthVader) (amount : Int) : DarthVader :=
  { v with current_force_points := min v.max_force_points (v.current_force_points + amount) }

/-- `DarthVader.regenerate_force_points`: end-of-turn regeneration.  The
`suit_system` argument of the source is represented by its only read field,
`breathing_disrupted`.  Returns (new state, actual amount regenerated). -/
def DarthVader.regenerate_force_points (v : DarthVader) (breathing_disrupted : Bool) :
    DarthVader × Int :=
  let exhausted := v.force_exhaustion_turns > 0
  let base_regen := if exhausted then v.force_point_regen_rate / 2 else v.force_point_regen_rate
  let v :=
    if exhausted then { v with force_exhaustion_turns := v.force_exhaustion_turns - 1 } else v
  let base_regen := if breathing_disrupted then base_regen / 2 else base_regen
  let base_regen := if v.rage ≥ 80 then base_regen + 5 else base_regen
  let old_fp := v.current_force_points
  let v := { v with
    current_force_points := min v.max_force_points (v.current_force_points + base_regen) }
  (v, v.current_force_points - old_fp)

/-- `DarthVader.add_experience` followed (on level-up) by
`DarthVader._apply_level_up_bonuses`.  Returns (new state, leveled-up flag). -/
def DarthVader.add_experience (v : DarthVader) (amount : Int) : DarthVader × Bool :=
  let v := { v with experience := v.experience + amount }
  let required_xp := v.level * 100
  if v.experience ≥ required_xp then
    ({ v with
        level := v.level + 1
        experience := v.experience - required_xp
        max_force_points := v.max_force_points + 10
        current_force_points := v.max_force_points + 10
        max_health := v.max_health + 15
        current_health := v.max_health + 15 }, true)
  else
    (v, false)

/-! ### Operation sequences on the actor (claim C1) -/

/-- One call of the actor interface named by claim C1.  Damage / heal /
spend / restore amounts are non-negative, as in every call site of the
combat engine. -/
inductive VaderOp where
  | takeDamage (amount : Nat)
  | heal (amount : Nat)
  | spendForcePoints (amount : Nat)
  | restoreForcePoints (amount : Nat)
  | regenerateForcePoints (breathing_disrupted : Bool)
  deriving Repr, DecidableEq

/-- State after one operation (return values discarded). -/
def applyOp (v : DarthVader) : VaderOp → DarthVader
  | .takeDamage a => (v.take_damage (a : Int)).1
  | .heal a => v.heal (a : Int)
  | .spendForcePoints a => (v.spend_force_points (a : Int)).1
  | .restoreForcePoints a => v.restore_force_points (a : Int)
  | .regenerateForcePoints bd => (v.regenerate_force_points bd).1

/-- The still-alive report of one operation (`true` for every operation other
than `take_damage`, which reports whether the actor survived). -/
def opAlive (v : DarthVader) : VaderOp → Bool
  | .takeDamage a => (v.take_damage (a : Int)).2
  | _ => true

/-- Run a sequence of operations. -/
def runOps (v : DarthVader) : List VaderOp → DarthVader
  | [] => v
  | op :: rest => runOps (applyOp v op) rest

/-- Run a sequence of operations, also tracking whether every `take_damage`
call so far reported the actor alive. -/
def runOpsAlive (v : DarthVader) (ok : Bool) : List VaderOp → DarthVader × Bool
  | [] => (v, ok)
  | op :: rest => runOpsAlive (applyOp v op) (ok && opAlive v op) rest

/-- The part of the C1 invariant that holds unconditionally. -/
def VaderInv (v : DarthVader) : Prop :=
  0 ≤ v.current_force_points ∧
  v.current_force_points ≤ v.max_force_points ∧
  v.current_health ≤ v.max_health ∧
  1 ≤ v.max_health ∧
  0 ≤ v.force_point_regen_rate

/-- The full invariant threaded through a run: the unconditional part, plus
positivity of health while every damage call has reported the actor alive. -/
def C1Inv (v : DarthVader) (ok : Bool) : Prop :=
  VaderInv v ∧ (ok = true → 1 ≤ v.current_health)

theorem c1Inv_step (v : DarthVader) (ok : Bool) (op : VaderOp) (h : C1Inv v ok) :
    C1Inv (applyOp v op) (ok && opAlive v op) := by
  obtain ⟨⟨h1, h2, h3, h4, h5⟩, h6⟩ := h
  cases op with
  | takeDamage a =>
    unfold C1Inv VaderInv applyOp opAlive DarthVader.take_damage
    dsimp only
    split_ifs with hle hrage
    · dsimp only
      rw [Bool.and_true]
      exact ⟨⟨h1, h2, h4, h4, h5⟩, fun _ => le_refl 1⟩
    · dsimp only
      rw [Bool.and_false]
      exact ⟨⟨h1, h2, by omega, h4, h5⟩, by simp⟩
    · dsimp only
      rw [Bool.and_true]
      exact ⟨⟨h1, h2, by omega, h4, h5⟩, fun _ => by omega⟩
  | heal a =>
    unfold C1Inv VaderInv applyOp opAlive DarthVader.heal
    dsimp only
    rw [Bool.and_true]
    refine ⟨⟨h1, h2, by omega, h4, h5⟩, fun hok => ?_⟩
    have h7 := h6 hok
    omega
  | spendForcePoints a =>
    unfold C1Inv VaderInv applyOp opAlive DarthVader.spend_force_points
    dsimp only
    rw [Bool.and_true]
    split_ifs with hge
    · dsimp only
      exact ⟨⟨by omega, by omega, h3, h4, h5⟩, h6⟩
    · exact ⟨⟨h1, h2, h3, h4, h5⟩, h6⟩
  | restoreForcePoints a =>
    unfold C1Inv VaderInv applyOp opAlive DarthVader.restore_force_points
    dsimp only
    rw [Bool.and_true]
    exact ⟨⟨by omega, by omega, h3, h4, h5⟩, h6⟩
  | regenerateForcePoints bd =>
    unfold C1Inv VaderInv applyOp opAlive DarthVader.regenerate_force_points
    dsimp only
    rw [Bool.and_true]
    split_ifs <;>
      exact ⟨⟨by (try dsimp only); omega, by (try dsimp only); omega, h3, h4, h5⟩, h6⟩

theorem c1Inv_run (v : DarthVader) (ok : Bool) (ops : List VaderOp) (h : C1Inv v ok) :
    C1Inv (runOpsAlive v ok ops).1 (runOpsAlive v ok ops).2 := by
  induction ops generalizing v ok with
  | nil => exact h
  | cons op rest ih => exact ih _ _ (c1Inv_step v ok op h)

theorem runOpsAlive_fst (v : DarthVader) (ok : Bool) (ops : List VaderOp) :
    (runOpsAlive v ok ops).1 = runOps v ops := by
  induction ops generalizing v ok with
  | nil => rfl
  | cons op rest ih => exact ih _ _

/-- C1 counterexample: starting from a freshly constructed actor, a single
`take_damage 200` call (lethal, with the starting rage 60 ≤ 80) leaves
`current_health = -50`, violating `0 ≤ current_health`. -/
theorem c1_clamping_counterexample :
    (runOps initVader [VaderOp.takeDamage 200]).current_health = -50 ∧
    ¬ (0 ≤ (runOps initVader [VaderOp.takeDamage 200]).current_health) := by
  constructor
  · rfl
  · decide

/-- C1 (amended): for every sequence of `take_damage` / `heal` /
`spend_force_points` / `restore_force_points` / `regenerate_force_points`
calls starting from a freshly constructed actor,
`0 ≤ current_force_points ≤ max_force_points` and
`current_health ≤ max_health` hold after every operation, and
`0 ≤ current_health` additionally holds as long as every `take_damage` call
so far has reported the actor still alive.  (Health is not clamped at 0: a
lethal hit without the rage save leaves it negative.) -/
theorem c1_clamping_amended (ops : List VaderOp) :
    0 ≤ (runOpsAlive initVader true ops).1.current_force_points ∧
    (runOpsAlive initVader true ops).1.current_force_points ≤
      (runOpsAlive initVader true ops).1.max_force_points ∧
    (runOpsAlive initVader true ops).1.current_health ≤
      (runOpsAlive initVader true ops).1.max_health ∧
    ((runOpsAlive initVader true ops).2 = true →
      0 ≤ (runOpsAlive initVader true ops).1.current_health) := by
  have h := c1Inv_run initVader true ops ⟨⟨by decide, by decide, by decide, by decide, by decide⟩,
    fun _ => by decide⟩
  obtain ⟨⟨h1, h2, h3, h4, h5⟩, h6⟩ := h
  exact ⟨h1, h2, h3, fun hok => le_trans (by omega) (h6 hok)⟩

/-- Witness for C1 (amended) at a concrete operation sequence: a non-lethal
hit followed by regeneration keeps every quantity in range. -/
theorem c1_clamping_amended_witness :
    0 ≤ (runOpsAlive initVader true
      [VaderOp.takeDamage 30, VaderOp.regenerateForcePoints false]).1.current_health :=
  (c1_clamping_amended [VaderOp.takeDamage 30, VaderOp.regenerateForcePoints false]).2.2.2
    (by decide)

/-! ### Claim C3 — the rage-based death save in `DarthVader.take_damage` -/

/-- C3: a `take_damage` call whose amount would bring health to ≤ 0 pins
health to exactly 1 and reports the actor alive when `rage > 80`, and leaves
health ≤ 0 reporting the actor defeated when `rage ≤ 80`; a non-lethal call
subtracts the full amount (the pin never acts as a damage reduction). -/
theorem c3_rage_death_save (v : DarthVader) (amount : Int) :
    (v.current_health - amount ≤ 0 →
      (80 < v.rage →
        (v.take_damage amount).1.current_health = 1 ∧ (v.take_damage amount).2 = true) ∧
      (v.rage ≤ 80 →
        (v.take_damage amount).1.current_health ≤ 0 ∧ (v.take_damage amount).2 = false)) ∧
    (0 < v.current_health - amount →
      (v.take_damage amount).1.current_health = v.current_health - amount ∧
      (v.take_damage amount).2 = true) := by
  unfold DarthVader.take_damage
  dsimp only
  split_ifs with hle hrage
  · exact ⟨fun _ => ⟨fun _ => ⟨rfl, rfl⟩, fun hr => absurd hrage (by omega)⟩, fun hpos => by omega⟩
  · exact ⟨fun _ => ⟨fun hr => absurd hr hrage, fun _ => ⟨by dsimp only; omega, rfl⟩⟩,
      fun hpos => by omega⟩
  · exact ⟨fun hcontra => absurd hcontra hle, fun _ => ⟨rfl, rfl⟩⟩

/-- A fresh actor whose rage has been driven above 80. -/
def enragedVader : DarthVader := { initVader with rage := 90 }

/-- Witness for C3 at concrete inputs: a 300-damage lethal hit on an actor
with rage 90 leaves exactly 1 health and reports the actor alive. -/
theorem c3_rage_death_save_witness :
    (enragedVader.take_damage 300).1.current_health = 1 ∧
    (enragedVader.take_damage 300).2 = true :=
  ((c3_rage_death_save enragedVader 300).1 (by decide)).1 (by decide)

/-! ### Opponents — `Enemy` from `src/src/combat/combat_system.py`

The `enemy_type` tag and `force_powers` list are omitted: no embedded
operation reads them. -/

inductive EnemyAIBehavior where
  | AGGRESSIVE
  | DEFENSIVE
  | TACTICAL
  | PANICKED
  | BERSERK
  | CALCULATED
  deriving Repr, DecidableEq

structure Enemy where
  id : String
  name : String
  max_hp : Int
  current_hp : Int
  attack_damage : Int
  defense : Int
  ai_behavior : EnemyAIBehavior
  morale : Int
  force_sensitive : Bool
  force_points : Int
  is_stunned : Bool
  is_feared : Bool
  is_defending : Bool
  is_alive : Bool
  force_resistance : Int
  lightsaber_resistance : Int
  credits_drop : Int
  experience_value : Int
  deriving Repr, DecidableEq

/-- `Enemy.take_damage`: defense absorbs all but at least 1 point of damage;
HP is clamped at 0 and `is_alive` cleared on death; morale drops by 20
(clamped at 0) when HP falls under 30% of max.  The source's float comparison
`current_hp < max_hp * 0.3` is modelled by the exact rational comparison
`current_hp * 10 < max_hp * 3`.  Returns (new state, actual damage, killed). -/
def Enemy.take_damage (e : Enemy) (amount : Int) : Enemy × Int × Bool :=
  let actual_damage := max 1 (amount - e.defense)
  let e := { e with current_hp := e.current_hp - actual_damage }
  let e :=
    if e.current_hp * 10 < e.max_hp * 3 then { e with morale := max 0 (e.morale - 20) } else e
  if e.current_hp ≤ 0 then
    ({ e with current_hp := 0, is_alive := false }, actual_damage, true)
  else
    (e, actual_damage, false)

/-- `Enemy.is_helpless`: `current_hp <= max_hp * 0.25 and current_hp > 0`
(0.25 is exactly representable, so `current_hp * 4 ≤ max_hp` is exact). -/
def Enemy.is_helpless (e : Enemy) : Bool :=
  e.current_hp * 4 ≤ e.max_hp && e.current_hp > 0

/-! ### Bosses — `BossEnemy` from `src/src/combat/boss_fight.py`

`special_actions` and `triggers` are omitted: no claim is about them and no
embedded operation reads them.  `phase_transitions` is a Python dict keyed by
phase; it is modelled as an association list in insertion order, which is the
dict's iteration order. -/

inductive BossPhase where
  | PHASE_1
  | PHASE_2
  | PHASE_3
  | FINAL
  deriving Repr, DecidableEq

/-- The `.value` of the `BossPhase` enum member. -/
def BossPhase.value : BossPhase → Int
  | .PHASE_1 => 1
  | .PHASE_2 => 2
  | .PHASE_3 => 3
  | .FINAL => 4

structure BossEnemy where
  id : String
  name : String
  max_hp : Int
  current_hp : Int
  base_damage : Int
  defense : Int
  current_phase : BossPhase
  phase_transitions : List (BossPhase × Int)
  force_resistance : Int
  lightsaber_resistance : Int
  aggressive : Bool
  adaptive : Bool
  turns_survived : Int
  damage_taken_total : Int
  times_vader_used_force : Int
  times_vader_attacked : Int
  deriving Repr, DecidableEq

/-- The transition scan of `BossEnemy.take_damage`: the first configured
entry whose threshold is reached (`hp_percent <= threshold`, modelled exactly
as `current_hp * 100 ≤ threshold * max_hp`) and whose phase ordinal exceeds
the current one.  The source `return`s out of the loop at the first hit. -/
def findPhaseTransition (cur : BossPhase) (hp max_hp : Int) :
    List (BossPhase × Int) → Option BossPhase
  | [] => none
  | (phase, threshold) :: rest =>
    if hp * 100 ≤ threshold * max_hp ∧ cur.value < phase.value then some phase
    else findPhaseTransition cur hp max_hp rest

/-- `BossEnemy.take_damage`: like `Enemy.take_damage` but tracking total
damage, without a morale check, and running the phase-transition scan when
the boss survives.  Returns (new state, actual damage, killed). -/
def BossEnemy.take_damage (b : BossEnemy) (amount : Int) : BossEnemy × Int × Bool :=
  let actual_damage := max 1 (amount - b.defense)
  let b := { b with
    current_hp := b.current_hp - actual_damage
    damage_taken_total := b.damage_taken_total + actual_damage }
  if b.current_hp ≤ 0 then
    ({ b with current_hp := 0 }, actual_damage, true)
  else
    match findPhaseTransition b.current_phase b.current_hp b.max_hp b.phase_transitions with
    | some phase => ({ b with current_phase := phase }, actual_damage, false)
    | none => (b, actual_damage, false)

/-- `BossEnemy.get_hp_percentage`: `int((current_hp / max_hp) * 100)`,
modelled by exact integer division (operands are non-negative in every
reachable state, where `int(...)` truncation and floor division agree). -/
def BossEnemy.get_hp_percentage (b : BossEnemy) : Int :=
  b.current_hp * 100 / b.max_hp

/-! ### Claim C10 — defense can never fully absorb a hit -/

/-- C10: for both regular enemies and bosses, `take_damage` reports an actual
damage of exactly `max 1 (amount - defense)`, and a hit on a target with
positive HP always lowers its HP by at least 1, no matter how high its
defense is. -/
theorem c10_damage_floor (e : Enemy) (b : BossEnemy) (amount : Int) :
    ((e.take_damage amount).2.1 = max 1 (amount - e.defense) ∧
      (0 < e.current_hp → (e.take_damage amount).1.current_hp ≤ e.current_hp - 1)) ∧
    ((b.take_damage amount).2.1 = max 1 (amount - b.defense) ∧
      (0 < b.current_hp → (b.take_damage amount).1.current_hp ≤ b.current_hp - 1)) := by
  constructor
  · unfold Enemy.take_damage
    dsimp only
    split_ifs <;> exact ⟨rfl, fun hpos => by dsimp only; omega⟩
  · unfold BossEnemy.take_damage
    dsimp only
    split_ifs with hdead
    · exact ⟨rfl, fun hpos => by dsimp only; omega⟩
    · split <;> exact ⟨rfl, fun hpos => by dsimp only; omega⟩

/-- The stormtrooper template of `create_enemy` (with a fixed id in place of
the random numeric suffix). -/
def sampleStormtrooper : Enemy where
  id := "stormtrooper_1"
  name := "Stormtrooper"
  max_hp := 25
  current_hp := 25
  attack_damage := 12
  defense := 3
  ai_behavior := .DEFENSIVE
  morale := 100
  force_sensitive := false
  force_points := 0
  is_stunned := false
  is_feared := false
  is_defending := false
  is_alive := true
  force_resistance := 0
  lightsaber_resistance := 0
  credits_drop := 50
  experience_value := 15

/-- The boss built by `create_infila_first_duel`. -/
def infilaFirstDuel : BossEnemy where
  id := "infila_first"
  name := "Kirak Infila"
  max_hp := 120
  current_hp := 120
  base_damage := 30
  defense := 15
  current_phase := .PHASE_1
  phase_transitions := [(.PHASE_2, 60)]
  force_resistance := 60
  lightsaber_resistance := 20
  aggressive := false
  adaptive := true
  turns_survived := 0
  damage_taken_total := 0
  times_vader_used_force := 0
  times_vader_attacked := 0

/-- Witness for C10 at concrete inputs: a 2-damage hit against defense 3
(resp. 15) still costs the stormtrooper and the first-duel boss at least one
hit point. -/
theorem c10_damage_floor_witness :
    (0 < sampleStormtrooper.current_hp ∧
      (sampleStormtrooper.take_damage 2).1.current_hp ≤ sampleStormtrooper.current_hp - 1) ∧
    (0 < infilaFirstDuel.current_hp ∧
      (infilaFirstDuel.take_damage 2).1.current_hp ≤ infilaFirstDuel.current_hp - 1) :=
  ⟨⟨by decide, (c10_damage_floor sampleStormtrooper infilaFirstDuel 2).1.2 (by decide)⟩,
   ⟨by decide, (c10_damage_floor sampleStormtrooper infilaFirstDuel 2).2.2 (by decide)⟩⟩

/-! ### The boss encounter engine — `BossFightSystem` from
`src/src/combat/boss_fight.py` (the parts claim C4 is about) -/

structure BossFightSystem where
  vader : DarthVader
  current_boss : Option BossEnemy
  turn_number : Int
  scripted_loss : Bool
  scripted_loss_triggered : Bool
  deriving Repr, DecidableEq

/-- `BossFightSystem._handle_boss_death`: on a boss kill the actor gains HP
equal to the boss's max HP (clamped), then is topped up to full health. -/
def BossFightSystem.handle_boss_death (sys : BossFightSystem) : BossFightSystem :=
  match sys.current_boss with
  | none => sys
  | some boss =>
    let v := sys.vader
    let v := { v with current_health := min v.max_health (v.current_health + boss.max_hp) }
    let v := if v.current_health < v.max_health then { v with current_health := v.max_health }
             else v
    { sys with vader := v }

/-- The phase scan at the end of `vader_attacks_boss`: same guard as
`findPhaseTransition` but against the truncated `get_hp_percentage` value,
with a `break` at the first hit. -/
def findPhaseTransitionPct (cur : BossPhase) (hp_percent : Int) :
    List (BossPhase × Int) → Option BossPhase
  | [] => none
  | (phase, threshold) :: rest =>
    if hp_percent ≤ threshold ∧ cur.value < phase.value then some phase
    else findPhaseTransitionPct cur hp_percent rest

/-- Result record of `BossFightSystem.vader_attacks_boss`. -/
structure BossAttackResult where
  success : Bool
  damage : Int
  killed : Bool
  phase_changed : Bool
  new_phase : Option BossPhase
  deriving Repr, DecidableEq

/-- `BossFightSystem.vader_attacks_boss`: count the attack, halve damage on a
successful resistance roll (`random.randint(1, 100) <= force_resistance`,
the roll an oracle parameter), apply `BossEnemy.take_damage`, handle a kill,
then run the (second) phase-transition scan. -/
def BossFightSystem.vader_attacks_boss (sys : BossFightSystem) (damage : Int)
    (resist_roll : Int) : BossFightSystem × BossAttackResult :=
  match sys.current_boss with
  | none => (sys, ⟨false, 0, false, false, none⟩)
  | some boss =>
    let boss := { boss with times_vader_attacked := boss.times_vader_attacked + 1 }
    let damage := if resist_roll ≤ boss.force_resistance then damage / 2 else damage
    let r := boss.take_damage damage
    let boss := r.1
    let actual_damage := r.2.1
    let killed := r.2.2
    let sys := { sys with current_boss := some boss }
    let sys := if killed then sys.handle_boss_death else sys
    let old_phase := boss.current_phase
    match findPhaseTransitionPct old_phase boss.get_hp_percentage boss.phase_transitions with
    | some phase =>
      ({ sys with current_boss := some { boss with current_phase := phase } },
       ⟨true, actual_damage, killed, true, some phase⟩)
    | none => (sys, ⟨true, actual_damage, killed, false, none⟩)

/-! ### Claim C4 — phase monotonicity and one-shot transitions -/

/-- A damage application named by claim C4: either a direct
`BossEnemy.take_damage` call on the current boss, or a
`vader_attacks_boss` call (with its resistance roll as an oracle). -/
inductive BossDamageStep where
  | direct (amount : Int)
  | attack (damage : Int) (resist_roll : Int)
  deriving Repr, DecidableEq

def applyBossStep (sys : BossFightSystem) : BossDamageStep → BossFightSystem
  | .direct amount =>
    match sys.current_boss with
    | none => sys
    | some boss => { sys with current_boss := some (boss.take_damage amount).1 }
  | .attack damage resist_roll => (sys.vader_attacks_boss damage resist_roll).1

def runBossSteps (sys : BossFightSystem) : List BossDamageStep → BossFightSystem
  | [] => sys
  | s :: rest => runBossSteps (applyBossStep sys s) rest

/-- The ordinal of the current boss phase (0 without a boss). -/
def bossPhaseValue (sys : BossFightSystem) : Int :=
  match sys.current_boss with
  | some boss => boss.current_phase.value
  | none => 0

/-- The phase ordinals entered along a run, in order (one entry per step
that changed the phase). -/
def runBossEvents (sys : BossFightSystem) : List BossDamageStep → List Int
  | [] => []
  | s :: rest =>
    let sys2 := applyBossStep sys s
    if bossPhaseValue sys2 ≠ bossPhaseValue sys then
      bossPhaseValue sys2 :: runBossEvents sys2 rest
    else
      runBossEvents sys2 rest

theorem findPhaseTransition_lt (cur : BossPhase) (hp max_hp : Int)
    (l : List (BossPhase × Int)) (p : BossPhase)
    (h : findPhaseTransition cur hp max_hp l = some p) : cur.value < p.value := by
  induction l with
  | nil => simp [findPhaseTransition] at h
  | cons head rest ih =>
    unfold findPhaseTransition at h
    split_ifs at h with hc
    · cases h
      exact hc.2
    · exact ih h

theorem findPhaseTransitionPct_lt (cur : BossPhase) (hp_percent : Int)
    (l : List (BossPhase × Int)) (p : BossPhase)
    (h : findPhaseTransitionPct cur hp_percent l = some p) : cur.value < p.value := by
  induction l with
  | nil => simp [findPhaseTransitionPct] at h
  | cons head rest ih =>
    unfold findPhaseTransitionPct at h
    split_ifs at h with hc
    · cases h
      exact hc.2
    · exact ih h

theorem take_damage_phase_mono (b : BossEnemy) (amount : Int) :
    b.current_phase.value ≤ (b.take_damage amount).1.current_phase.value := by
  unfold BossEnemy.take_damage
  dsimp only
  split_ifs with hdead
  · exact le_refl _
  · split
    · rename_i p hp
      exact le_of_lt (findPhaseTransition_lt _ _ _ _ _ hp)
    · exact le_refl _

theorem vader_attacks_boss_phase (sys : BossFightSystem) (boss : BossEnemy)
    (damage resist_roll : Int) (hb : sys.current_boss = some boss) :
    ∃ b2 : BossEnemy, (sys.vader_attacks_boss damage resist_roll).1.current_boss = some b2 ∧
      boss.current_phase.value ≤ b2.current_phase.value := by
  unfold BossFightSystem.vader_attacks_boss
  rw [hb]
  dsimp only
  have hmono2 : boss.current_phase.value ≤
      ({ boss with times_vader_attacked := boss.times_vader_attacked + 1 }.take_damage
        (if resist_roll ≤ boss.force_resistance then damage / 2
         else damage)).1.current_phase.value :=
    take_damage_phase_mono _ _
  split
  · rename_i phase hfind
    have hlt := findPhaseTransitionPct_lt _ _ _ _ hfind
    refine ⟨_, rfl, ?_⟩
    dsimp only
    omega
  · rename_i hfind
    unfold BossFightSystem.handle_boss_death
    dsimp only
    split_ifs <;> exact ⟨_, rfl, take_damage_phase_mono _ _⟩

theorem applyBossStep_mono (sys : BossFightSystem) (s : BossDamageStep) :
    bossPhaseValue sys ≤ bossPhaseValue (applyBossStep sys s) := by
  cases s with
  | direct amount =>
    unfold applyBossStep bossPhaseValue
    cases hb : sys.current_boss with
    | none => simp [hb]
    | some boss =>
      simp only [hb]
      exact take_damage_phase_mono boss amount
  | attack damage resist_roll =>
    cases hb : sys.current_boss with
    | none =>
      have hsame : (sys.vader_attacks_boss damage resist_roll).1 = sys := by
        unfold BossFightSystem.vader_attacks_boss
        rw [hb]
      unfold applyBossStep
      dsimp only
      rw [hsame]
    | some boss =>
      obtain ⟨b2, hb2, hle⟩ := vader_attacks_boss_phase sys boss damage resist_roll hb
      unfold applyBossStep bossPhaseValue
      simp only [hb2, hb]
      exact hle

theorem runBossSteps_mono_events (sys : BossFightSystem) (steps : List BossDamageStep) :
    bossPhaseValue sys ≤ bossPhaseValue (runBossSteps sys steps) ∧
    List.Chain (· < ·) (bossPhaseValue sys) (runBossEvents sys steps) := by
  induction steps generalizing sys with
  | nil => exact ⟨le_refl _, List.Chain.nil⟩
  | cons s rest ih =>
    have hmono := applyBossStep_mono sys s
    obtain ⟨ih1, ih2⟩ := ih (applyBossStep sys s)
    unfold runBossSteps runBossEvents
    dsimp only
    split_ifs with hne
    · exact ⟨le_trans hmono ih1, List.Chain.cons (by omega) ih2⟩
    · rw [not_not] at hne  -- hne : value unchanged
      refine ⟨le_trans hmono ih1, ?_⟩
      rw [hne] at ih2
      exact ih2

/-- C4: over every sequence of damage applications (direct
`BossEnemy.take_damage` calls or `vader_attacks_boss` calls, any damage
amounts and resistance rolls), the boss's phase ordinal never decreases, and
each phase is entered at most once — a threshold that already fired cannot
re-fire its phase. -/
theorem c4_phase_monotonicity (sys : BossFightSystem) (steps : List BossDamageStep) :
    bossPhaseValue sys ≤ bossPhaseValue (runBossSteps sys steps) ∧
    ∀ p : Int, (runBossEvents sys steps).count p ≤ 1 := by
  obtain ⟨h1, h2⟩ := runBossSteps_mono_events sys steps
  refine ⟨h1, fun p => ?_⟩
  have hpw : (runBossEvents sys steps).Pairwise (· < ·) :=
    (List.chain_iff_pairwise.mp h2).of_cons
  have hnd : (runBossEvents sys steps).Nodup := hpw.imp ne_of_lt
  exact List.nodup_iff_count_le_one.mp hnd p

/-! ### The suit collaborator — `SuitSystem` from
`src/src/character/suit_system.py`

Only the pieces the combat engine reads or writes are modelled: overall and
per-component integrity (seven components, in enum order), pain, the
breathing flag and credits.  The combat engine only ever calls
`take_suit_damage` without a component, so only the general-damage branch is
embedded. -/

structure SuitSystem where
  integrity : Int
  component_integrity : List Int
  current_pain_level : Int
  pain_threshold : Int
  breathing_disrupted : Bool
  needs_maintenance : Bool
  credits : Int
  deriving Repr, DecidableEq

/-- `SuitSystem.__init__`. -/
def initSuit : SuitSystem where
  integrity := 100
  component_integrity := [100, 100, 100, 100, 100, 100, 100]
  current_pain_level := 40
  pain_threshold := 60
  breathing_disrupted := false
  needs_maintenance := false
  credits := 5000

/-- The dict returned by `SuitSystem.get_pain_modifier`. -/
structure PainModifiers where
  force_power_bonus : Int
  control_penalty : Int
  attack_penalty : Int
  deriving Repr, DecidableEq

/-- `SuitSystem.get_pain_modifier`. -/
def SuitSystem.get_pain_modifier (s : SuitSystem) : PainModifiers :=
  if s.current_pain_level > s.pain_threshold then
    let excess_pain := s.current_pain_level - s.pain_threshold
    ⟨excess_pain / 10, excess_pain / 15, excess_pain / 20⟩
  else
    ⟨0, 0, 0⟩

/-- `SuitSystem.take_suit_damage` with no target component (the only form the
combat engine uses): distribute `amount // 7` to each component (clamped at
0), recompute overall integrity as the component average, flag maintenance
below 30, and raise pain by `amount // 2` (capped at 100). -/
def SuitSystem.take_suit_damage (s : SuitSystem) (amount : Int) : SuitSystem :=
  let comps := s.component_integrity.map (fun c => max 0 (c - amount / 7))
  let s := { s with component_integrity := comps, integrity := comps.sum / 7 }
  let s := if s.integrity < 30 then { s with needs_maintenance := true } else s
  { s with current_pain_level := min 100 (s.current_pain_level + amount / 2) }

/-! ### The ability catalog — `ForcePowerSystem` from
`src/src/character/force_powers.py`

Python dicts (`learned_powers`, `powers_used_count`, `active_effects`) are
modelled as association lists in insertion order.  In-place mutation of a
`ForcePower` object is modelled by writing the updated record back under its
key.  Fields of `ForcePower` that no embedded operation reads (learning
requirements, category, description, experience cost) are omitted. -/

/-- Python dict read: first binding of the key, if any. -/
def dictGet {α : Type} (l : List (String × α)) (k : String) : Option α :=
  match l with
  | [] => none
  | (k2, v) :: rest => if k2 = k then some v else dictGet rest k

/-- Python dict write `d[k] = v`: replace the binding if present, else append. -/
def dictSet {α : Type} (l : List (String × α)) (k : String) (v : α) : List (String × α) :=
  match l with
  | [] => [(k, v)]
  | (k2, v2) :: rest => if k2 = k then (k2, v) :: rest else (k2, v2) :: dictSet rest k v

inductive ForcePowerTier where
  | BASIC
  | ADVANCED
  | MASTER
  | LEGENDARY
  deriving Repr, DecidableEq

structure ForcePower where
  id : String
  name : String
  tier : ForcePowerTier
  force_point_cost : Int
  cooldown_turns : Int
  suit_damage_risk : Int
  base_damage : Int
  duration_turns : Int
  area_effect : Bool
  scales_with_darkness : Bool
  scales_with_rage : Bool
  learned : Bool
  current_cooldown : Int
  mastery_level : Int
  deriving Repr, DecidableEq

structure ForcePowerSystem where
  learned_powers : List (String × ForcePower)
  active_effects : List (String × Int)
  force_points_spent_total : Int
  powers_used_count : List (String × Int)
  legendary_uses_this_combat : Int
  force_sensitive_kills : Int
  force_lightning_attempts : Int
  force_lightning_successes : Int
  deriving Repr, DecidableEq

/-- `ForcePowerSystem.can_use_power`: (can_use, reason_if_not). -/
def ForcePowerSystem.can_use_power (fps : ForcePowerSystem) (power_id : String)
    (current_force_points : Int) : Bool × String :=
  match dictGet fps.learned_powers power_id with
  | none => (false, "Power not learned")
  | some power =>
    if power.current_cooldown > 0 then
      (false, "On cooldown: " ++ toString power.current_cooldown ++ " turns remaining")
    else if current_force_points < power.force_point_cost then
      (false, "Need " ++ toString power.force_point_cost ++ " Force Points (have "
        ++ toString current_force_points ++ ")")
    else
      (true, "Can use")

/-- The effects dict returned by `ForcePowerSystem.use_power` (the message
string, pure presentation, is not modelled). -/
structure UseEffects where
  damage : Int
  area_effect : Bool
  duration : Int
  suit_damage : Int
  force_points_spent : Int
  deriving Repr, DecidableEq

/-- The oracle for `random.randint`: consume the next roll (1 if the oracle
list is exhausted — the theorems quantify over all oracles). -/
def nextRoll (rolls : List Int) : Int × List Int :=
  match rolls with
  | [] => (1, [])
  | r :: rest => (r, rest)

/-- `ForcePowerSystem.use_power`: deterministic damage formula, cooldown set,
usage and mastery tracking, and the Force Lightning random side channel
(suit-damage roll, suit-damage amount, and success roll, in draw order, taken
from the oracle list).  Returns
(success, effects, new catalog, new suit, remaining oracle). -/
def ForcePowerSystem.use_power (fps : ForcePowerSystem) (power_id : String)
    (vader_darkness vader_rage : Int) (suit : SuitSystem) (rolls : List Int) :
    Bool × UseEffects × ForcePowerSystem × SuitSystem × List Int :=
  match dictGet fps.learned_powers power_id with
  | none => (false, ⟨0, false, 0, 0, 0⟩, fps, suit, rolls)
  | some power =>
    let fps :=
      if power.tier = ForcePowerTier.LEGENDARY then
        { fps with legendary_uses_this_combat := fps.legendary_uses_this_combat + 1 }
      else fps
    let final_damage := power.base_damage
    let final_damage :=
      if power.scales_with_darkness then final_damage + vader_darkness / 10 * 5
      else final_damage
    let final_damage :=
      if power.scales_with_rage then final_damage + vader_rage / 10 * 3 else final_damage
    let power := { power with current_cooldown := power.cooldown_turns }
    let fps := { fps with
      force_points_spent_total := fps.force_points_spent_total + power.force_point_cost
      powers_used_count := dictSet fps.powers_used_count power_id
        ((dictGet fps.powers_used_count power_id).getD 0 + 1) }
    let power := { power with mastery_level := min 100 (power.mastery_level + 2) }
    if power_id = "force_lightning" then
      let fps := { fps with force_lightning_attempts := fps.force_lightning_attempts + 1 }
      let p1 := nextRoll rolls
      let sd :=
        if p1.1 ≤ power.suit_damage_risk then
          let p2 := nextRoll p1.2
          (p2.1, suit.take_suit_damage p2.1, p2.2)
        else (0, suit, p1.2)
      let suit_damage := sd.1
      let suit := sd.2.1
      let p3 := nextRoll sd.2.2
      let success_chance := 60 + power.mastery_level / 2
      let ls := if p3.1 > success_chance then (false, final_damage / 3) else (true, final_damage)
      let final_damage := ls.2
      let fps :=
        if ls.1 then
          { fps with force_lightning_successes := fps.force_lightning_successes + 1 }
        else fps
      let fps :=
        if power.duration_turns > (1 : Int) then
          { fps with active_effects := dictSet fps.active_effects power_id power.duration_turns }
        else fps
      let fps := { fps with learned_powers := dictSet fps.learned_powers power_id power }
      (true, ⟨final_damage, power.area_effect, power.duration_turns, suit_damage,
        power.force_point_cost⟩, fps, suit, p3.2)
    else
      let fps :=
        if power.duration_turns > (1 : Int) then
          { fps with active_effects := dictSet fps.active_effects power_id power.duration_turns }
        else fps
      let fps := { fps with learned_powers := dictSet fps.learned_powers power_id power }
      (true, ⟨final_damage, power.area_effect, power.duration_turns, 0,
        power.force_point_cost⟩, fps, suit, rolls)

/-- `ForcePowerSystem.update_cooldowns`: decrement every non-zero cooldown,
decrement every active-effect duration and prune the expired ones. -/
def ForcePowerSystem.update_cooldowns (fps : ForcePowerSystem) : ForcePowerSystem :=
  let lp := fps.learned_powers.map (fun kv =>
    (kv.1,
     if kv.2.current_cooldown > 0 then
       { kv.2 with current_cooldown := kv.2.current_cooldown - 1 }
     else kv.2))
  let ae := (fps.active_effects.map (fun kv => (kv.1, kv.2 - 1))).filter (fun kv => kv.2 > 0)
  { fps with learned_powers := lp, active_effects := ae }

/-- `ForcePowerSystem.reset_combat_tracking`. -/
def ForcePowerSystem.reset_combat_tracking (fps : ForcePowerSystem) : ForcePowerSystem :=
  { fps with legendary_uses_this_combat := 0, force_sensitive_kills := 0 }

/-- `ForcePowerSystem.on_enemy_killed`: (bonus FP, new state). -/
def ForcePowerSystem.on_enemy_killed (fps : ForcePowerSystem)
    (enemy_is_force_sensitive : Bool) : Int × ForcePowerSystem :=
  if enemy_is_force_sensitive then
    (10, { fps with force_sensitive_kills := fps.force_sensitive_kills + 1 })
  else
    (5, fps)

/-- `ForcePowerSystem.check_legendary_exhaustion`: at 3 or more legendary
uses this combat, put a 3-turn exhaustion on the actor and reset the counter.
Returns (applied, new catalog, new actor). -/
def ForcePowerSystem.check_legendary_exhaustion (fps : ForcePowerSystem) (vader : DarthVader) :
    Bool × ForcePowerSystem × DarthVader :=
  if fps.legendary_uses_this_combat ≥ 3 then
    (true, { fps with legendary_uses_this_combat := 0 },
     { vader with force_exhaustion_turns := 3 })
  else
    (false, fps, vader)

/-! ### The combat engine — `CombatSystem` from
`src/src/combat/combat_system.py`

`CombatState` is embedded whole; the engine record bundles the actor, suit,
catalog and state (the reinforcement bookkeeping, read by no claim-relevant
operation, is omitted).  Python mutates the `Enemy` objects held in
`combat_state.enemies` in place; this is modelled by replacing the first
list entry carrying the mutated enemy's id, which coincides with the
aliasing semantics whenever ids are distinct. -/

structure CombatState where
  turn_number : Int
  vader_turn : Bool
  combat_active : Bool
  enemies : List Enemy
  enemies_killed : Int
  vader_defended_this_turn : Bool
  vader_can_retreat : Bool
  victory_type : Option String
  total_damage_dealt : Int
  total_damage_taken : Int
  helpless_enemies : List String
  deriving Repr, DecidableEq

structure CombatSystem where
  vader : DarthVader
  suit : SuitSystem
  force_powers : ForcePowerSystem
  combat_state : CombatState
  deriving Repr, DecidableEq

/-- `CombatSystem.start_combat`: fresh `CombatState` over the given
opponents, with the per-combat ability tracking reset. -/
def CombatSystem.start_combat (sys : CombatSystem) (enemies : List Enemy) : CombatSystem :=
  { sys with
    force_powers := sys.force_powers.reset_combat_tracking
    combat_state :=
      { turn_number := 1
        vader_turn := true
        combat_active := true
        enemies := enemies
        enemies_killed := 0
        vader_defended_this_turn := false
        vader_can_retreat := true
        victory_type := none
        total_damage_dealt := 0
        total_damage_taken := 0
        helpless_enemies := [] } }

/-- `CombatSystem._get_enemy_by_id`: first enemy with the given id. -/
def CombatSystem.get_enemy_by_id (sys : CombatSystem) (enemy_id : String) : Option Enemy :=
  sys.combat_state.enemies.find? (fun e => e.id == enemy_id)

/-- Write-back of an in-place `Enemy` mutation: replace the first list entry
with the given id. -/
def updateEnemy (enemies : List Enemy) (enemy_id : String) (e2 : Enemy) : List Enemy :=
  match enemies with
  | [] => []
  | e :: rest => if e.id == enemy_id then e2 :: rest else e :: updateEnemy rest enemy_id e2

/-- `CombatSystem._handle_enemy_death`: kill counter, flat force-point bonus
(clamped to the maximum), credits, and experience (with its level-up rule). -/
def CombatSystem.handle_enemy_death (sys : CombatSystem) (enemy : Enemy) : CombatSystem :=
  let cs := { sys.combat_state with enemies_killed := sys.combat_state.enemies_killed + 1 }
  let ok := sys.force_powers.on_enemy_killed enemy.force_sensitive
  let v := { sys.vader with
    current_force_points :=
      min sys.vader.max_force_points (sys.vader.current_force_points + ok.1) }
  let suit := { sys.suit with credits := sys.suit.credits + enemy.credits_drop }
  let v := (v.add_experience enemy.experience_value).1
  { sys with vader := v, suit := suit, force_powers := ok.2, combat_state := cs }

/-- Result dict of `CombatSystem.vader_attack`. -/
structure AttackResult where
  success : Bool
  message : String
  target : String
  damage : Int
  killed : Bool
  deriving Repr, DecidableEq

/-- `CombatSystem.vader_attack`: lightsaber attack with pain penalty and
lightsaber resistance, floored at 5 damage; on kill the death bookkeeping
runs; on non-kill a newly helpless target is appended to the helpless list
(once). -/
def CombatSystem.vader_attack (sys : CombatSystem) (target_id : String) :
    CombatSystem × AttackResult :=
  match sys.get_enemy_by_id target_id with
  | none => (sys, ⟨false, "Invalid target", "", 0, false⟩)
  | some target =>
    if !target.is_alive then (sys, ⟨false, "Invalid target", "", 0, false⟩)
    else
      let base_damage := 40 + sys.vader.strength * 2
      let damage_penalty := (sys.suit.get_pain_modifier).attack_penalty
      let final_damage := max 5 (base_damage - damage_penalty - target.lightsaber_resistance)
      let r := target.take_damage final_damage
      let target2 := r.1
      let actual_damage := r.2.1
      let killed := r.2.2
      let sys := { sys with combat_state := { sys.combat_state with
        enemies := updateEnemy sys.combat_state.enemies target_id target2
        total_damage_dealt := sys.combat_state.total_damage_dealt + actual_damage } }
      if killed then
        (sys.handle_enemy_death target2, ⟨true, "", target.name, actual_damage, true⟩)
      else
        let sys :=
          if target2.is_helpless && !(sys.combat_state.helpless_enemies.contains target_id) then
            { sys with combat_state := { sys.combat_state with
              helpless_enemies := sys.combat_state.helpless_enemies ++ [target_id] } }
          else sys
        (sys, ⟨true, "", target.name, actual_damage, false⟩)

/-- `CombatSystem._apply_force_damage`: optional resistance roll (drawn only
when `force_resistance > 0`) halving the damage, then `Enemy.take_damage`
and, on a kill, the death bookkeeping.  Returns
(new system, actual damage, killed, remaining oracle). -/
def CombatSystem.apply_force_damage (sys : CombatSystem) (target : Enemy) (damage : Int)
    (rolls : List Int) : CombatSystem × Int × Bool × List Int :=
  let rd :=
    if target.force_resistance > 0 then
      let p := nextRoll rolls
      (if p.1 ≤ target.force_resistance then damage / 2 else damage, p.2)
    else (damage, rolls)
  let r := target.take_damage rd.1
  let target2 := r.1
  let actual_damage := r.2.1
  let killed := r.2.2
  let sys := { sys with combat_state := { sys.combat_state with
    enemies := updateEnemy sys.combat_state.enemies target.id target2
    total_damage_dealt := sys.combat_state.total_damage_dealt + actual_damage } }
  let sys := if killed then sys.handle_enemy_death target2 else sys
  (sys, actual_damage, killed, rd.2)

/-- The area-effect loop of `vader_use_force_power`: apply the computed
damage independently to every currently-alive opponent, in list order,
collecting hit and kill name lists. -/
def CombatSystem.area_force_damage (sys : CombatSystem) (damage : Int)
    (targets : List Enemy) (rolls : List Int) (targets_hit kills : List String) :
    CombatSystem × List String × List String × List Int :=
  match targets with
  | [] => (sys, targets_hit, kills, rolls)
  | enemy :: rest =>
    if enemy.is_alive then
      let r := sys.apply_force_damage enemy damage rolls
      CombatSystem.area_force_damage r.1 damage rest r.2.2.2 (targets_hit ++ [enemy.name])
        (if r.2.2.1 then kills ++ [enemy.name] else kills)
    else
      CombatSystem.area_force_damage sys damage rest rolls targets_hit kills

/-- Result dict of `CombatSystem.vader_use_force_power`. -/
structure PowerResult where
  success : Bool
  message : String
  power_name : String
  damage : Int
  area_effect : Bool
  targets_hit : List String
  kills : List String
  deriving Repr, DecidableEq

/-- `CombatSystem.vader_use_force_power`: gate on `can_use_power` (returning
its reason on failure, with no state change), then spend the cost, run
`use_power`, apply area or single-target damage, and check legendary
exhaustion. -/
def CombatSystem.vader_use_force_power (sys : CombatSystem) (power_id : String)
    (target_id : Option String) (rolls : List Int) : CombatSystem × PowerResult :=
  let cu := sys.force_powers.can_use_power power_id sys.vader.current_force_points
  if !cu.1 then (sys, ⟨false, cu.2, "", 0, false, [], []⟩)
  else
    match dictGet sys.force_powers.learned_powers power_id with
    | none => (sys, ⟨false, "Power not learned", "", 0, false, [], []⟩)
    | some power =>
      let v := (sys.vader.spend_force_points power.force_point_cost).1
      let sys := { sys with vader := v }
      let up := sys.force_powers.use_power power_id sys.vader.darkness sys.vader.rage
        sys.suit rolls
      let effects := up.2.1
      let sys := { sys with force_powers := up.2.2.1, suit := up.2.2.2.1 }
      let rolls := up.2.2.2.2
      let ad :=
        if effects.damage > (0 : Int) then
          if power.area_effect then
            sys.area_force_damage effects.damage sys.combat_state.enemies rolls [] []
          else
            match target_id with
            | some tid =>
              match sys.get_enemy_by_id tid with
              | some target =>
                if target.is_alive then
                  let r := sys.apply_force_damage target effects.damage rolls
                  (r.1, [target.name], if r.2.2.1 then [target.name] else [], r.2.2.2)
                else (sys, [], [], rolls)
              | none => (sys, [], [], rolls)
            | none => (sys, [], [], rolls)
        else (sys, [], [], rolls)
      let sys := ad.1
      let cl := sys.force_powers.check_legendary_exhaustion sys.vader
      let sys := { sys with force_powers := cl.2.1, vader := cl.2.2 }
      (sys, ⟨true, "", power.name, effects.damage, effects.area_effect, ad.2.1, ad.2.2.1⟩)

/-- `CombatSystem.vader_defend`: set the turn-scoped defend flag. -/
def CombatSystem.vader_defend (sys : CombatSystem) : CombatSystem :=
  { sys with combat_state := { sys.combat_state with vader_defended_this_turn := true } }

/-- `CombatSystem.vader_meditate`: restore a flat 30 force points. -/
def CombatSystem.vader_meditate (sys : CombatSystem) : CombatSystem :=
  { sys with vader := sys.vader.restore_force_points 30 }

/-- `CombatSystem._enemy_ai_decision`: the AI decision table.  The flee and
cower rolls (`random.randint(1, 100)`) are oracle parameters; the source
draws them only when the corresponding guard holds, which is observationally
identical.  The float thresholds `max_hp * 0.4` and `max_hp * 0.3` are
modelled by the exact comparisons `current_hp * 10 < max_hp * 4` and
`current_hp * 10 < max_hp * 3`. -/
def CombatSystem.enemy_ai_decision (enemy : Enemy) (flee_roll cower_roll : Int) : String :=
  if enemy.morale < 20 ∧ enemy.force_sensitive = false ∧ flee_roll ≤ 50 then "flee"
  else if enemy.is_feared = true ∧ cower_roll ≤ 30 then "cower"
  else
    match enemy.ai_behavior with
    | .AGGRESSIVE => "attack"
    | .DEFENSIVE =>
      if enemy.current_hp * 10 < enemy.max_hp * 4 then "defend" else "attack"
    | .TACTICAL =>
      if enemy.current_hp * 10 < enemy.max_hp * 3 then "defend"
      else if enemy.force_sensitive = true ∧ enemy.force_points ≥ 20 then "force_power"
      else "attack"
    | .CALCULATED => "attack"
    | _ => "attack"

/-- `CombatSystem._execute_enemy_action`: resolve one enemy action.  In the
`attack` branch the suit-damage chance roll and amount are oracle draws; in
the `force_power` branch the damage (`random.randint(15, 25)`) is an oracle
draw and — unlike the `attack` branch — the still-alive return of
`take_damage` is discarded, so a lethal Force hit does not end combat. -/
def CombatSystem.execute_enemy_action (sys : CombatSystem) (enemy : Enemy) (action : String)
    (rolls : List Int) : CombatSystem × List Int :=
  if action = "attack" then
    let damage := enemy.attack_damage
    let damage := if sys.combat_state.vader_defended_this_turn then damage / 2 else damage
    let td := sys.vader.take_damage damage
    let sys := { sys with vader := td.1 }
    if td.2 then
      let sys := { sys with combat_state := { sys.combat_state with
        total_damage_taken := sys.combat_state.total_damage_taken + damage } }
      let p1 := nextRoll rolls
      if p1.1 ≤ 15 then
        let p2 := nextRoll p1.2
        ({ sys with suit := sys.suit.take_suit_damage p2.1 }, p2.2)
      else (sys, p1.2)
    else
      ({ sys with combat_state := { sys.combat_state with
        combat_active := false
        victory_type := some "defeat" } }, rolls)
  else if action = "defend" then
    ({ sys with combat_state := { sys.combat_state with
      enemies := updateEnemy sys.combat_state.enemies enemy.id
        { enemy with is_defending := true } } }, rolls)
  else if action = "flee" then
    ({ sys with combat_state := { sys.combat_state with
      enemies := updateEnemy sys.combat_state.enemies enemy.id
        { enemy with is_alive := false } } }, rolls)
  else if action = "cower" then (sys, rolls)
  else if action = "force_power" then
    let p1 := nextRoll rolls
    let td := sys.vader.take_damage p1.1
    ({ sys with
      vader := td.1
      combat_state := { sys.combat_state with
        total_damage_taken := sys.combat_state.total_damage_taken + p1.1 } }, p1.2)
  else (sys, rolls)

/-- The loop body of `CombatSystem.enemy_turn` over the ids of the snapshot
of alive enemies: consume a stun, otherwise decide (two oracle rolls) and
execute. -/
def CombatSystem.run_enemy (sys : CombatSystem) (ids : List String) (rolls : List Int) :
    CombatSystem × List Int :=
  match ids with
  | [] => (sys, rolls)
  | eid :: rest =>
    match sys.get_enemy_by_id eid with
    | none => CombatSystem.run_enemy sys rest rolls
    | some enemy =>
      if enemy.is_stunned then
        let sys := { sys with combat_state := { sys.combat_state with
          enemies := updateEnemy sys.combat_state.enemies eid
            { enemy with is_stunned := false } } }
        CombatSystem.run_enemy sys rest rolls
      else
        let p1 := nextRoll rolls
        let p2 := nextRoll p1.2
        let action := CombatSystem.enemy_ai_decision enemy p1.1 p2.1
        let r := sys.execute_enemy_action enemy action p2.2
        CombatSystem.run_enemy r.1 rest r.2

/-- `CombatSystem.enemy_turn`: every alive (snapshot) opponent takes its
turn. -/
def CombatSystem.enemy_turn (sys : CombatSystem) (rolls : List Int) :
    CombatSystem × List Int :=
  let alive_ids := (sys.combat_state.enemies.filter (fun e => e.is_alive)).map (fun e => e.id)
  sys.run_enemy alive_ids rolls

/-- `CombatSystem._check_victory_conditions`: all dead → total victory; some
alive but every alive opponent feared with no morale left → intimidation
victory. -/
def CombatSystem.check_victory_conditions (sys : CombatSystem) : CombatSystem :=
  let alive_enemies := sys.combat_state.enemies.filter (fun e => e.is_alive)
  let sys :=
    if alive_enemies.length = 0 then
      { sys with combat_state := { sys.combat_state with
        combat_active := false
        victory_type := some "total_victory" } }
    else sys
  let non_fled := alive_enemies.filter (fun e => !e.is_feared || decide (e.morale > 0))
  if alive_enemies.length > 0 ∧ non_fled.length = 0 then
    { sys with combat_state := { sys.combat_state with
      combat_active := false
      victory_type := some "intimidation_victory" } }
  else sys

/-- `CombatSystem.end_turn`: regenerate the actor's resource (through the
suit's breathing flag), decrement ability cooldowns, clear the turn-scoped
defend flag, advance the turn counter, then evaluate victory conditions. -/
def CombatSystem.end_turn (sys : CombatSystem) : CombatSystem :=
  let sys := { sys with vader := (sys.vader.regenerate_force_points
    sys.suit.breathing_disrupted).1 }
  let sys := { sys with force_powers := sys.force_powers.update_cooldowns }
  let sys := { sys with combat_state := { sys.combat_state with
    vader_defended_this_turn := false
    turn_number := sys.combat_state.turn_number + 1 } }
  sys.check_victory_conditions

/-! ### Claim C2 — lethal damage during the enemy turn -/

/-- A catalog state with nothing learned (the enemy turn never touches the
ability catalog, so its contents are irrelevant to claim C2). -/
def emptyForcePowers : ForcePowerSystem where
  learned_powers := []
  active_effects := []
  force_points_spent_total := 0
  powers_used_count := []
  legendary_uses_this_combat := 0
  force_sensitive_kills := 0
  force_lightning_attempts := 0
  force_lightning_successes := 0

/-- The Jedi Survivor template of `create_enemy` (fixed id in place of the
random suffix): tactical, force-sensitive, 50 force points. -/
def jediSurvivor : Enemy where
  id := "jedi_1"
  name := "Jedi Survivor"
  max_hp := 80
  current_hp := 80
  attack_damage := 30
  defense := 10
  ai_behavior := .TACTICAL
  morale := 100
  force_sensitive := true
  force_points := 50
  is_stunned := false
  is_feared := false
  is_defending := false
  is_alive := true
  force_resistance := 40
  lightsaber_resistance := 15
  credits_drop := 0
  experience_value := 100

/-- An active combat against a single Jedi Survivor with the actor at 10
health (rage 60, so the rage save cannot fire). -/
def c2sys : CombatSystem where
  vader := { initVader with current_health := 10 }
  suit := initSuit
  force_powers := emptyForcePowers
  combat_state :=
    { turn_number := 1
      vader_turn := true
      combat_active := true
      enemies := [jediSurvivor]
      enemies_killed := 0
      vader_defended_this_turn := false
      vader_can_retreat := true
      victory_type := none
      total_damage_dealt := 0
      total_damage_taken := 0
      helpless_enemies := [] }

/-- C2 (code bug): during `enemy_turn`, the tactical force-sensitive enemy
chooses `force_power` (rolls 60/60 fail flee and cower, HP is full, 50 ≥ 20
force points) and deals 20 damage; the actor's health drops to -10 with the
rage save not firing, yet combat stays active and no `defeat` is recorded —
the `force_power` branch of `_execute_enemy_action` discards the
still-alive return of `take_damage`.  The `attack` branch at the very same
state does transition to `Ended(defeat)`, as the claim requires. -/
theorem c2_lethal_force_power_bug :
    (c2sys.enemy_turn [60, 60, 20]).1.vader.current_health = -10 ∧
    (c2sys.enemy_turn [60, 60, 20]).1.combat_state.combat_active = true ∧
    (c2sys.enemy_turn [60, 60, 20]).1.combat_state.victory_type = none ∧
    (c2sys.execute_enemy_action jediSurvivor "attack" []).1.combat_state.combat_active = false ∧
    (c2sys.execute_enemy_action jediSurvivor "attack" []).1.combat_state.victory_type =
      some "defeat" :=
  ⟨rfl, rfl, rfl, rfl, rfl⟩

/-! ### Claim C8 — the enemy AI decision table -/

/-- C8: the AI decision is evaluated in priority order — (1) morale < 20 and
not force-sensitive with a roll ≤ 50 flees; (2) otherwise feared with a roll
≤ 30 cowers; (3) otherwise by behavior tag: Aggressive always attacks;
Defensive defends iff HP < 40% of max; Tactical defends iff HP < 30% of max,
else uses a Force action iff force-sensitive with ≥ 20 force points, else
attacks; Calculated always attacks.  (HP percentages as exact rational
comparisons.) -/
theorem c8_ai_decision_table (e : Enemy) (flee_roll cower_roll : Int) :
    ((e.morale < 20 ∧ e.force_sensitive = false ∧ flee_roll ≤ 50) →
      CombatSystem.enemy_ai_decision e flee_roll cower_roll = "flee") ∧
    (¬(e.morale < 20 ∧ e.force_sensitive = false ∧ flee_roll ≤ 50) →
      ((e.is_feared = true ∧ cower_roll ≤ 30) →
        CombatSystem.enemy_ai_decision e flee_roll cower_roll = "cower") ∧
      (¬(e.is_feared = true ∧ cower_roll ≤ 30) →
        (e.ai_behavior = .AGGRESSIVE →
          CombatSystem.enemy_ai_decision e flee_roll cower_roll = "attack") ∧
        (e.ai_behavior = .DEFENSIVE →
          (e.current_hp * 10 < e.max_hp * 4 →
            CombatSystem.enemy_ai_decision e flee_roll cower_roll = "defend") ∧
          (¬(e.current_hp * 10 < e.max_hp * 4) →
            CombatSystem.enemy_ai_decision e flee_roll cower_roll = "attack")) ∧
        (e.ai_behavior = .TACTICAL →
          (e.current_hp * 10 < e.max_hp * 3 →
            CombatSystem.enemy_ai_decision e flee_roll cower_roll = "defend") ∧
          (¬(e.current_hp * 10 < e.max_hp * 3) →
            ((e.force_sensitive = true ∧ e.force_points ≥ 20) →
              CombatSystem.enemy_ai_decision e flee_roll cower_roll = "force_power") ∧
            (¬(e.force_sensitive = true ∧ e.force_points ≥ 20) →
              CombatSystem.enemy_ai_decision e flee_roll cower_roll = "attack"))) ∧
        (e.ai_behavior = .CALCULATED →
          CombatSystem.enemy_ai_decision e flee_roll cower_roll = "attack"))) := by
  unfold CombatSystem.enemy_ai_decision
  by_cases h1 : e.morale < 20 ∧ e.force_sensitive = false ∧ flee_roll ≤ 50
  · rw [if_pos h1]
    exact ⟨fun _ => rfl, fun hn => absurd h1 hn⟩
  · rw [if_neg h1]
    by_cases h2 : e.is_feared = true ∧ cower_roll ≤ 30
    · rw [if_pos h2]
      exact ⟨fun hc => absurd hc h1, fun _ => ⟨fun _ => rfl, fun hn => absurd h2 hn⟩⟩
    · rw [if_neg h2]
      refine ⟨fun hc => absurd hc h1, fun _ => ⟨fun hc => absurd hc h2, fun _ =>
        ⟨fun hb => ?_, fun hb => ?_, fun hb => ?_, fun hb => ?_⟩⟩⟩
      · rw [hb]
      · rw [hb]
        exact ⟨fun hlt => if_pos hlt, fun hge => if_neg hge⟩
      · rw [hb]
        exact ⟨fun hlt => if_pos hlt,
          fun hge => by
            rw [if_neg hge]
            exact ⟨fun hfp => if_pos hfp, fun hnfp => if_neg hnfp⟩⟩
      · rw [hb]

/-- Witness for C8 at concrete inputs: the full-health defensive
stormtrooper with failed rolls attacks. -/
theorem c8_ai_decision_table_witness :
    CombatSystem.enemy_ai_decision sampleStormtrooper 100 100 = "attack" :=
  ((((c8_ai_decision_table sampleStormtrooper 100 100).2 (by decide)).2
    (by decide)).2.1 rfl).2 (by decide)

/-! ### Claim C5 — victory evaluation at `end_turn` -/

/-- C5: at every `end_turn` on an active session (morale is non-negative in
every reachable state): no alive opponent → `total_victory`; some alive and
every alive opponent feared with zero morale → `intimidation_victory`;
otherwise combat stays active with the terminal state unchanged. -/
theorem c5_victory_evaluation (sys : CombatSystem)
    (hactive : sys.combat_state.combat_active = true)
    (hmor : ∀ e ∈ sys.combat_state.enemies, 0 ≤ e.morale) :
    (sys.combat_state.enemies.filter (fun e => e.is_alive) = [] →
      (sys.end_turn).combat_state.combat_active = false ∧
      (sys.end_turn).combat_state.victory_type = some "total_victory") ∧
    (sys.combat_state.enemies.filter (fun e => e.is_alive) ≠ [] →
      ((∀ e ∈ sys.combat_state.enemies.filter (fun e => e.is_alive),
          e.is_feared = true ∧ e.morale = 0) →
        (sys.end_turn).combat_state.combat_active = false ∧
        (sys.end_turn).combat_state.victory_type = some "intimidation_victory") ∧
      (¬(∀ e ∈ sys.combat_state.enemies.filter (fun e => e.is_alive),
          e.is_feared = true ∧ e.morale = 0) →
        (sys.end_turn).combat_state.combat_active = true ∧
        (sys.end_turn).combat_state.victory_type = sys.combat_state.victory_type)) := by
  unfold CombatSystem.end_turn CombatSystem.check_victory_conditions
  dsimp only
  by_cases ha : (sys.combat_state.enemies.filter (fun e => e.is_alive)).length = 0
  · rw [if_pos ha]
    have hnil : sys.combat_state.enemies.filter (fun e => e.is_alive) = [] :=
      List.length_eq_zero.mp ha
    rw [if_neg (by omega :
      ¬((sys.combat_state.enemies.filter (fun e => e.is_alive)).length > 0 ∧
        ((sys.combat_state.enemies.filter (fun e => e.is_alive)).filter
          (fun e => !e.is_feared || decide (e.morale > 0))).length = 0))]
    exact ⟨fun _ => ⟨rfl, rfl⟩, fun hne => absurd hnil hne⟩
  · rw [if_neg ha]
    have hne : sys.combat_state.enemies.filter (fun e => e.is_alive) ≠ [] := by
      intro hnil
      exact ha (by rw [hnil]; rfl)
    by_cases hb : (sys.combat_state.enemies.filter (fun e => e.is_alive)).length > 0 ∧
        ((sys.combat_state.enemies.filter (fun e => e.is_alive)).filter
          (fun e => !e.is_feared || decide (e.morale > 0))).length = 0
    · rw [if_pos hb]
      have hall : ∀ e ∈ sys.combat_state.enemies.filter (fun e => e.is_alive),
          e.is_feared = true ∧ e.morale = 0 := by
        intro e he
        have hp := (List.filter_eq_nil_iff.mp (List.length_eq_zero.mp hb.2)) e he
        have hm0 : 0 ≤ e.morale := hmor e (List.mem_filter.mp he).1
        simp only [Bool.or_eq_true, Bool.not_eq_true', decide_eq_true_eq, not_or] at hp
        obtain ⟨hf, hm⟩ := hp
        refine ⟨?_, by omega⟩
        cases hfe : e.is_feared with
        | false => exact absurd hfe hf
        | true => rfl
      exact ⟨fun hnil => absurd hnil hne, fun _ =>
        ⟨fun _ => ⟨rfl, rfl⟩, fun hnot => absurd hall hnot⟩⟩
    · rw [if_neg hb]
      refine ⟨fun hnil => absurd hnil hne, fun _ => ⟨fun hall => ?_, fun _ => ⟨hactive, rfl⟩⟩⟩
      refine absurd ⟨?_, ?_⟩ hb
      · have : (sys.combat_state.enemies.filter (fun e => e.is_alive)).length ≠ 0 := ha
        omega
      · rw [List.length_eq_zero]
        rw [List.filter_eq_nil_iff]
        intro e he
        obtain ⟨hf, hm⟩ := hall e he
        simp [hf, hm]

/-- An active session whose single opponent is already dead (the total
victory scenario). -/
def c5sys : CombatSystem where
  vader := initVader
  suit := initSuit
  force_powers := emptyForcePowers
  combat_state :=
    { turn_number := 1
      vader_turn := true
      combat_active := true
      enemies := [{ sampleStormtrooper with current_hp := 0, is_alive := false }]
      enemies_killed := 1
      vader_defended_this_turn := false
      vader_can_retreat := true
      victory_type := none
      total_damage_dealt := 50
      total_damage_taken := 0
      helpless_enemies := [] }

/-- Witness for C5 at a concrete session: with every opponent dead,
`end_turn` records a total victory and deactivates combat. -/
theorem c5_victory_evaluation_witness :
    (c5sys.end_turn).combat_state.combat_active = false ∧
    (c5sys.end_turn).combat_state.victory_type = some "total_victory" :=
  (c5_victory_evaluation c5sys rfl (by decide)).1 (by decide)

/-! ### Claim C6 — ability rejection in `vader_use_force_power` -/

theorem can_use_power_not_learned (fps : ForcePowerSystem) (power_id : String)
    (fp : Int) (h : dictGet fps.learned_powers power_id = none) :
    fps.can_use_power power_id fp = (false, "Power not learned") := by
  unfold ForcePowerSystem.can_use_power
  rw [h]

theorem can_use_power_cooldown (fps : ForcePowerSystem) (power_id : String) (fp : Int)
    (p : ForcePower) (h : dictGet fps.learned_powers power_id = some p)
    (hcd : p.current_cooldown > 0) :
    fps.can_use_power power_id fp =
      (false, "On cooldown: " ++ toString p.current_cooldown ++ " turns remaining") := by
  unfold ForcePowerSystem.can_use_power
  rw [h]
  dsimp only
  rw [if_pos hcd]

theorem can_use_power_insufficient (fps : ForcePowerSystem) (power_id : String) (fp : Int)
    (p : ForcePower) (h : dictGet fps.learned_powers power_id = some p)
    (hcd : ¬p.current_cooldown > 0) (hfp : fp < p.force_point_cost) :
    fps.can_use_power power_id fp =
      (false, "Need " ++ toString p.force_point_cost ++ " Force Points (have "
        ++ toString fp ++ ")") := by
  unfold ForcePowerSystem.can_use_power
  rw [h]
  dsimp only
  rw [if_neg hcd, if_pos hfp]

theorem can_use_power_ok (fps : ForcePowerSystem) (power_id : String) (fp : Int)
    (p : ForcePower) (h : dictGet fps.learned_powers power_id = some p)
    (hcd : ¬p.current_cooldown > 0) (hfp : ¬fp < p.force_point_cost) :
    fps.can_use_power power_id fp = (true, "Can use") := by
  unfold ForcePowerSystem.can_use_power
  rw [h]
  dsimp only
  rw [if_neg hcd, if_neg hfp]

theorem vader_use_force_power_reject (sys : CombatSystem) (power_id : String)
    (target_id : Option String) (rolls : List Int) (msg : String)
    (h : sys.force_powers.can_use_power power_id sys.vader.current_force_points =
      (false, msg)) :
    sys.vader_use_force_power power_id target_id rolls =
      (sys, ⟨false, msg, "", 0, false, [], []⟩) := by
  unfold CombatSystem.vader_use_force_power
  rw [h]
  rfl

theorem vader_use_force_power_accept (sys : CombatSystem) (power_id : String)
    (target_id : Option String) (rolls : List Int) (p : ForcePower)
    (hd : dictGet sys.force_powers.learned_powers power_id = some p)
    (h : sys.force_powers.can_use_power power_id sys.vader.current_force_points =
      (true, "Can use")) :
    (sys.vader_use_force_power power_id target_id rolls).2.success = true := by
  unfold CombatSystem.vader_use_force_power
  rw [h, hd]
  rfl

/-- C6: `vader_use_force_power` rejects exactly when the ability is not
learned, on cooldown, or costs more than the current force points; the
reported reason is the `can_use_power` reason, which names the case (with
turns remaining, or needed and available amounts); and a rejection changes
no state at all (the whole system — force points, cooldowns, mastery, usage
counters, opponents — is returned unchanged). -/
theorem c6_ability_rejection (sys : CombatSystem) (power_id : String)
    (target_id : Option String) (rolls : List Int) :
    ((sys.vader_use_force_power power_id target_id rolls).2.success = false ↔
      (dictGet sys.force_powers.learned_powers power_id = none ∨
       ∃ p, dictGet sys.force_powers.learned_powers power_id = some p ∧
         (0 < p.current_cooldown ∨ sys.vader.current_force_points < p.force_point_cost))) ∧
    ((sys.vader_use_force_power power_id target_id rolls).2.success = false →
      (sys.vader_use_force_power power_id target_id rolls).1 = sys ∧
      (sys.vader_use_force_power power_id target_id rolls).2.message =
        (sys.force_powers.can_use_power power_id sys.vader.current_force_points).2) ∧
    (dictGet sys.force_powers.learned_powers power_id = none →
      (sys.force_powers.can_use_power power_id sys.vader.current_force_points).2 =
        "Power not learned") ∧
    (∀ p, dictGet sys.force_powers.learned_powers power_id = some p →
      (0 < p.current_cooldown →
        (sys.force_powers.can_use_power power_id sys.vader.current_force_points).2 =
          "On cooldown: " ++ toString p.current_cooldown ++ " turns remaining") ∧
      (¬0 < p.current_cooldown → sys.vader.current_force_points < p.force_point_cost →
        (sys.force_powers.can_use_power power_id sys.vader.current_force_points).2 =
          "Need " ++ toString p.force_point_cost ++ " Force Points (have "
            ++ toString sys.vader.current_force_points ++ ")")) := by
  cases hd : dictGet sys.force_powers.learned_powers power_id with
  | none =>
    have hcu := can_use_power_not_learned sys.force_powers power_id
      sys.vader.current_force_points hd
    have hrej := vader_use_force_power_reject sys power_id target_id rolls _ hcu
    rw [hrej, hcu]
    refine ⟨⟨fun _ => Or.inl rfl, fun _ => rfl⟩, fun _ => ⟨rfl, rfl⟩, fun _ => rfl, ?_⟩
    intro p hp
    cases hp
  | some p =>
    by_cases hcd : p.current_cooldown > 0
    · have hcu := can_use_power_cooldown sys.force_powers power_id
        sys.vader.current_force_points p hd hcd
      have hrej := vader_use_force_power_reject sys power_id target_id rolls _ hcu
      rw [hrej, hcu]
      refine ⟨⟨fun _ => Or.inr ⟨p, rfl, Or.inl hcd⟩, fun _ => rfl⟩, fun _ => ⟨rfl, rfl⟩,
        ?_, ?_⟩
      · intro hn
        cases hn
      · intro q hq
        cases hq
        exact ⟨fun _ => rfl, fun hncd _ => absurd hcd hncd⟩
    · by_cases hfp : sys.vader.current_force_points < p.force_point_cost
      · have hcu := can_use_power_insufficient sys.force_powers power_id
          sys.vader.current_force_points p hd hcd hfp
        have hrej := vader_use_force_power_reject sys power_id target_id rolls _ hcu
        rw [hrej, hcu]
        refine ⟨⟨fun _ => Or.inr ⟨p, rfl, Or.inr hfp⟩, fun _ => rfl⟩, fun _ => ⟨rfl, rfl⟩,
          ?_, ?_⟩
        · intro hn
          cases hn
        · intro q hq
          cases hq
          exact ⟨fun hq2 => absurd hq2 hcd, fun _ _ => rfl⟩
      · have hcu := can_use_power_ok sys.force_powers power_id
          sys.vader.current_force_points p hd hcd hfp
        have hacc := vader_use_force_power_accept sys power_id target_id rolls p hd hcu
        refine ⟨⟨fun hfa => ?_, fun hor => ?_⟩, fun hfa => ?_, ?_, ?_⟩
        · rw [hacc] at hfa
          cases hfa
        · exfalso
          rcases hor with hnone | ⟨q, hq, hbad⟩
          · cases hnone
          · cases hq
            rcases hbad with h1 | h2
            · exact hcd h1
            · exact hfp h2
        · rw [hacc] at hfa
          cases hfa
        · intro hn
          cases hn
        · intro q hq
          cases hq
          exact ⟨fun hq2 => absurd hq2 hcd, fun _ hq3 => absurd hq3 hfp⟩

/-- The Force Choke catalog entry (20 force points, 1-turn cooldown). -/
def forceChoke : ForcePower where
  id := "force_choke"
  name := "Force Choke"
  tier := .ADVANCED
  force_point_cost := 20
  cooldown_turns := 1
  suit_damage_risk := 0
  base_damage := 35
  duration_turns := 3
  area_effect := false
  scales_with_darkness := true
  scales_with_rage := true
  learned := true
  current_cooldown := 0
  mastery_level := 0

/-- A session whose actor holds 5 force points and has learned Force Choke
(the rejection scenario). -/
def c6sys : CombatSystem where
  vader := { initVader with current_force_points := 5 }
  suit := initSuit
  force_powers := { emptyForcePowers with learned_powers := [("force_choke", forceChoke)] }
  combat_state :=
    { turn_number := 1
      vader_turn := true
      combat_active := true
      enemies := [sampleStormtrooper]
      enemies_killed := 0
      vader_defended_this_turn := false
      vader_can_retreat := true
      victory_type := none
      total_damage_dealt := 0
      total_damage_taken := 0
      helpless_enemies := [] }

/-- Witness for C6 at the spec's scenario: 5 force points against a 20-cost
ability → rejected with `Need 20 Force Points (have 5)` and no state
change. -/
theorem c6_ability_rejection_witness :
    (c6sys.vader_use_force_power "force_choke" none []).2.success = false ∧
    (c6sys.vader_use_force_power "force_choke" none []).1 = c6sys ∧
    (c6sys.vader_use_force_power "force_choke" none []).2.message =
      "Need 20 Force Points (have 5)" := by
  have h := c6_ability_rejection c6sys "force_choke" none []
  have hfail : (c6sys.vader_use_force_power "force_choke" none []).2.success = false :=
    h.1.mpr (Or.inr ⟨forceChoke, rfl, Or.inr (by decide)⟩)
  refine ⟨hfail, (h.2.1 hfail).1, ?_⟩
  rw [(h.2.1 hfail).2]
  rfl

/-! ### Claim C7 — deterministic ability use (non-lightning) -/

theorem dictGet_dictSet {α : Type} (l : List (String × α)) (k : String) (v : α) :
    dictGet (dictSet l k v) k = some v := by
  induction l with
  | nil => simp [dictSet, dictGet]
  | cons head rest ih =>
    obtain ⟨k2, v2⟩ := head
    by_cases h : k2 = k
    · simp [dictSet, dictGet, h]
    · simp [dictSet, dictGet, h, ih]

/-- C7: for every learned ability other than Force Lightning, `use_power`
succeeds deterministically (suit and random oracle untouched), computes
`damage = baseDamage + (darkness div 10)*5 [if it scales with darkness]
+ (rage div 10)*3 [if it scales with rage]`, sets the ability's cooldown to
its configured `cooldown_turns`, raises its mastery by 2 capped at 100, and
increments its usage counter. -/
theorem c7_power_use_formula (fps : ForcePowerSystem) (power_id : String) (p : ForcePower)
    (darkness rage : Int) (suit : SuitSystem) (rolls : List Int)
    (hlearn : dictGet fps.learned_powers power_id = some p)
    (hnl : power_id ≠ "force_lightning") :
    (fps.use_power power_id darkness rage suit rolls).1 = true ∧
    (fps.use_power power_id darkness rage suit rolls).2.1.damage =
      p.base_damage + (if p.scales_with_darkness then darkness / 10 * 5 else 0)
        + (if p.scales_with_rage then rage / 10 * 3 else 0) ∧
    dictGet (fps.use_power power_id darkness rage suit rolls).2.2.1.learned_powers power_id =
      some { p with
        current_cooldown := p.cooldown_turns
        mastery_level := min 100 (p.mastery_level + 2) } ∧
    dictGet (fps.use_power power_id darkness rage suit rolls).2.2.1.powers_used_count
        power_id =
      some ((dictGet fps.powers_used_count power_id).getD 0 + 1) ∧
    (fps.use_power power_id darkness rage suit rolls).2.2.2.1 = suit ∧
    (fps.use_power power_id darkness rage suit rolls).2.2.2.2 = rolls := by
  unfold ForcePowerSystem.use_power
  rw [hlearn]
  dsimp only
  rw [if_neg hnl]
  split_ifs <;>
    refine ⟨rfl, ?_, dictGet_dictSet _ _ _, dictGet_dictSet _ _ _, rfl, rfl⟩ <;>
    (try dsimp only) <;> omega

/-- The Force Push catalog entry (10 force points, no cooldown, area
effect, no scaling). -/
def forcePush : ForcePower where
  id := "force_push"
  name := "Force Push"
  tier := .BASIC
  force_point_cost := 10
  cooldown_turns := 0
  suit_damage_risk := 0
  base_damage := 15
  duration_turns := 1
  area_effect := true
  scales_with_darkness := false
  scales_with_rage := false
  learned := true
  current_cooldown := 0
  mastery_level := 0

/-- A catalog holding only the learned Force Push. -/
def c7fps : ForcePowerSystem :=
  { emptyForcePowers with learned_powers := [("force_push", forcePush)] }

/-- Witness for C7 at concrete inputs: using Force Push at darkness 50 and
rage 60. -/
theorem c7_power_use_formula_witness :
    (c7fps.use_power "force_push" 50 60 initSuit []).1 = true ∧
    (c7fps.use_power "force_push" 50 60 initSuit []).2.1.damage =
      forcePush.base_damage
        + (if forcePush.scales_with_darkness then (50 : Int) / 10 * 5 else 0)
        + (if forcePush.scales_with_rage then (60 : Int) / 10 * 3 else 0) ∧
    dictGet (c7fps.use_power "force_push" 50 60 initSuit []).2.2.1.learned_powers
        "force_push" =
      some { forcePush with
        current_cooldown := forcePush.cooldown_turns
        mastery_level := min 100 (forcePush.mastery_level + 2) } ∧
    dictGet (c7fps.use_power "force_push" 50 60 initSuit []).2.2.1.powers_used_count
        "force_push" =
      some ((dictGet c7fps.powers_used_count "force_push").getD 0 + 1) ∧
    (c7fps.use_power "force_push" 50 60 initSuit []).2.2.2.1 = initSuit ∧
    (c7fps.use_power "force_push" 50 60 initSuit []).2.2.2.2 = [] :=
  c7_power_use_formula c7fps "force_push" forcePush 50 60 initSuit [] rfl (by decide)

/-! ### Claim C9 — helpless-list maintenance in `vader_attack` -/

theorem take_damage_id (e : Enemy) (amount : Int) : (e.take_damage amount).1.id = e.id := by
  unfold Enemy.take_damage
  dsimp only
  split_ifs <;> rfl

theorem find_updateEnemy (l : List Enemy) (eid : String) (t e2 : Enemy)
    (hf : l.find? (fun e => e.id == eid) = some t) (he2 : (e2.id == eid) = true) :
    (updateEnemy l eid e2).find? (fun e => e.id == eid) = some e2 := by
  induction l with
  | nil => simp at hf
  | cons e rest ih =>
    unfold updateEnemy
    by_cases h : (e.id == eid) = true
    · rw [if_pos h]
      exact List.find?_cons_of_pos _ he2
    · rw [if_neg h]
      rw [List.find?_cons_of_neg _ (by simpa using h)]
      rw [List.find?_cons_of_neg _ (by simpa using h)] at hf
      exact ih hf

/-- C9 counterexample: a helpless opponent (5 of 40 HP, listed in
`helpless_enemies`) is killed by `vader_attack`, and its id is NOT removed
from the helpless list — the kill path never touches the list, contrary to
the claim. -/
def c9sysA : CombatSystem where
  vader := initVader
  suit := initSuit
  force_powers := emptyForcePowers
  combat_state :=
    { turn_number := 1
      vader_turn := true
      combat_active := true
      enemies := [{ sampleStormtrooper with
        id := "e1", max_hp := 40, current_hp := 5, defense := 0 }]
      enemies_killed := 0
      vader_defended_this_turn := false
      vader_can_retreat := true
      victory_type := none
      total_damage_dealt := 0
      total_damage_taken := 0
      helpless_enemies := ["e1"] }

/-- C9 counterexample (see `c9sysA`): the attack kills, yet the id stays in
the helpless list. -/
theorem c9_removal_counterexample :
    (c9sysA.vader_attack "e1").2.killed = true ∧
    (c9sysA.vader_attack "e1").1.combat_state.helpless_enemies = ["e1"] := by
  constructor
  · rfl
  · rfl

/-- C9 (amended): `vader_attack` never removes the killed target's id from
the helpless-enemies list (the list is unchanged on a kill; entries are only
removed by `execute_enemy`); on a successful non-killing attack that leaves
the target helpless (0 < HP ≤ 25% of max) the id is recorded exactly once —
appended only if absent — and if the target is not helpless the list is
unchanged. -/
theorem c9_helpless_tracking (sys : CombatSystem) (target_id : String) :
    ((sys.vader_attack target_id).2.killed = true →
      (sys.vader_attack target_id).1.combat_state.helpless_enemies =
        sys.combat_state.helpless_enemies) ∧
    ((sys.vader_attack target_id).2.success = true →
      (sys.vader_attack target_id).2.killed = false →
      ∀ e2, (sys.vader_attack target_id).1.get_enemy_by_id target_id = some e2 →
        (e2.is_helpless = true →
          (target_id ∉ sys.combat_state.helpless_enemies →
            (sys.vader_attack target_id).1.combat_state.helpless_enemies =
              sys.combat_state.helpless_enemies ++ [target_id] ∧
            ((sys.vader_attack target_id).1.combat_state.helpless_enemies).count target_id
              = 1) ∧
          (target_id ∈ sys.combat_state.helpless_enemies →
            (sys.vader_attack target_id).1.combat_state.helpless_enemies =
              sys.combat_state.helpless_enemies)) ∧
        (e2.is_helpless = false →
          (sys.vader_attack target_id).1.combat_state.helpless_enemies =
            sys.combat_state.helpless_enemies)) := by
  unfold CombatSystem.vader_attack
  cases hf : sys.get_enemy_by_id target_id with
  | none =>
    dsimp only
    refine ⟨fun hk => ?_, fun hs => ?_⟩
    · cases hk
    · cases hs
  | some target =>
    have hf2 : sys.combat_state.enemies.find? (fun e => e.id == target_id) = some target := by
      simpa [CombatSystem.get_enemy_by_id] using hf
    have hpt0 := List.find?_some hf2
    have hpt : (target.id == target_id) = true := hpt0
    dsimp only
    by_cases hal : (!target.is_alive) = true
    · rw [if_pos hal]
      refine ⟨fun hk => ?_, fun hs => ?_⟩
      · cases hk
      · cases hs
    · rw [if_neg hal]
      try dsimp only
      split_ifs with hk hhc
      · -- killed: the helpless list passes through handle_enemy_death untouched
        refine ⟨fun _ => rfl, fun _ hkf => ?_⟩
        simp at hkf
      · -- not killed, target newly helpless and not yet listed: appended
        refine ⟨fun hkt => ?_, fun _ _ => ?_⟩
        · simp at hkt
        · intro e2 he2
          have hid : ((target.take_damage (max 5 (40 + sys.vader.strength * 2 -
              (sys.suit.get_pain_modifier).attack_penalty -
              target.lightsaber_resistance))).1.id == target_id) = true := by
            rw [take_damage_id]
            exact hpt
          have hfind := find_updateEnemy sys.combat_state.enemies target_id target _
            hf2 hid
          unfold CombatSystem.get_enemy_by_id at he2
          dsimp only at he2
          rw [hfind] at he2
          cases he2
          rw [Bool.and_eq_true] at hhc
          have hnc := hhc.2
          rw [Bool.not_eq_true'] at hnc
          refine ⟨fun _ => ⟨fun hnm => ⟨rfl, ?_⟩, fun hm => ?_⟩, fun hhf => ?_⟩
          · rw [List.count_append, List.count_eq_zero.mpr hnm]
            simp
          · have hc : sys.combat_state.helpless_enemies.contains target_id = true :=
              List.elem_iff.mpr hm
            rw [hc] at hnc
            cases hnc
          · exact absurd hhc.1 (by rw [hhf]; exact Bool.false_ne_true)
      · -- not killed, no new helpless entry: list unchanged
        refine ⟨fun hkt => ?_, fun _ _ => ?_⟩
        · simp at hkt
        · intro e2 he2
          have hid : ((target.take_damage (max 5 (40 + sys.vader.strength * 2 -
              (sys.suit.get_pain_modifier).attack_penalty -
              target.lightsaber_resistance))).1.id == target_id) = true := by
            rw [take_damage_id]
            exact hpt
          have hfind := find_updateEnemy sys.combat_state.enemies target_id target _
            hf2 hid
          unfold CombatSystem.get_enemy_by_id at he2
          dsimp only at he2
          rw [hfind] at he2
          cases he2
          refine ⟨fun hhf => ⟨fun hnm => absurd ?_ hhc, fun _ => rfl⟩, fun _ => rfl⟩
          rw [Bool.and_eq_true]
          refine ⟨hhf, ?_⟩
          rw [Bool.not_eq_true']
          cases hcm : List.contains sys.combat_state.helpless_enemies target_id with
          | false => rfl
          | true => exact absurd (List.elem_iff.mp hcm) hnm

/-- A session with a 400-max-HP opponent at 100 HP: one attack leaves it at
42 HP, inside the helpless band. -/
def c9sysB : CombatSystem where
  vader := initVader
  suit := initSuit
  force_powers := emptyForcePowers
  combat_state :=
    { turn_number := 1
      vader_turn := true
      combat_active := true
      enemies := [{ sampleStormtrooper with
        id := "e1", max_hp := 400, current_hp := 100, defense := 0 }]
      enemies_killed := 0
      vader_defended_this_turn := false
      vader_can_retreat := true
      victory_type := none
      total_damage_dealt := 0
      total_damage_taken := 0
      helpless_enemies := [] }

/-- The opponent of `c9sysB` after the 58-damage attack (HP 42, morale
dropped under the 30% check). -/
def c9target_after : Enemy :=
  { sampleStormtrooper with
    id := "e1", max_hp := 400, current_hp := 42, defense := 0, morale := 80 }

/-- Witness for C9 (amended) at a concrete non-killing attack: the target
ends helpless and its id is recorded exactly once. -/
theorem c9_helpless_tracking_witness :
    (c9sysB.vader_attack "e1").1.combat_state.helpless_enemies = [] ++ ["e1"] ∧
    ((c9sysB.vader_attack "e1").1.combat_state.helpless_enemies).count "e1" = 1 :=
  (((c9_helpless_tracking c9sysB "e1").2 (by decide) (by decide) c9target_after
    (by decide)).1 (by decide)).1 (by decide)
